import Mathlib

/-!
Verification of the response-normalization and retry pipeline of the
Flooky-Front backend (bill / contract / financial / CV processors, the
conversation store, and the chat service).

The Python sources are shallowly embedded: JSON values are an inductive
type, Python dicts are ordered association lists, Python floats are
modelled as exact rationals, raised exceptions are `Except` errors, and
`time.sleep` / HTTP-call counts are recorded in an explicit trace.  The
remote completion endpoint, file extraction, and filename sanitizing are
external collaborators and enter as parameters of each model.
-/

namespace Flooky

/-- Model of a parsed JSON value (the result of Python `json.loads`).
`inum` and `fnum` keep Python's int / float distinction: a JSON number
without fraction or exponent parses to a Python int, otherwise to a
float.  Floats are modelled as exact rationals.  An object is an ordered
association list, as produced by the recursive-descent grammar below. -/
inductive Json where
  | null : Json
  | bool (b : Bool) : Json
  | inum (n : Int) : Json
  | fnum (q : ℚ) : Json
  | str (s : String) : Json
  | arr (xs : List Json) : Json
  | obj (kvs : List (String × Json)) : Json

/-- Dict lookup with Python `dict` semantics: `json.loads` collapses
duplicate keys with the last occurrence winning, so lookup prefers the
rightmost binding. -/
def jLookup : List (String × Json) → String → Option Json
  | [], _ => none
  | (k2, v) :: rest, k =>
    match jLookup rest k with
    | some r => some r
    | none => if k2 = k then some v else none

/-- Python `d.get(key, default)` on a dict value. -/
def dictGetD (kvs : List (String × Json)) (k : String) (d : Json) : Json :=
  (jLookup kvs k).getD d

/-- Field lookup on a JSON value that is expected to be an object;
`none` when the value is not an object or lacks the key. -/
def jGetObj (j : Json) (k : String) : Option Json :=
  match j with
  | .obj kvs => jLookup kvs k
  | _ => none

/-- Keys of a JSON object, in order (empty for non-objects). -/
def objKeys (j : Json) : List String :=
  match j with
  | .obj kvs => kvs.map (fun kv => kv.1)
  | _ => []

/-- Model of a raised Python exception: the `str(e)` text, and whether
the exception is a `ValueError` or `TypeError` (the two classes caught
by the bill item-cleaning loop and the bill total coercion). -/
structure PyErr where
  msg : String
  isVT : Bool
deriving DecidableEq

/-- Python type name of a JSON value, used in exception messages. -/
def pyTypeName (j : Json) : String :=
  match j with
  | .null => "NoneType"
  | .bool _ => "bool"
  | .inum _ => "int"
  | .fnum _ => "float"
  | .str _ => "str"
  | .arr _ => "list"
  | .obj _ => "dict"

/-- Python `value.get(key, default)`: succeeds on a dict, raises
`AttributeError` on anything else. -/
def pyGet (j : Json) (k : String) (d : Json) : Except PyErr Json :=
  match j with
  | .obj kvs => .ok (dictGetD kvs k d)
  | _ => .error ⟨"\x27" ++ pyTypeName j ++ "\x27 object has no attribute \x27get\x27", false⟩

/-- Characters treated as whitespace by the JSON grammar. -/
def jsonWsChar (c : Char) : Bool :=
  c = ' ' || c = '\t' || c = '\n' || c = '\r'

/-- Drop leading JSON whitespace. -/
def skipWs : List Char → List Char
  | [] => []
  | c :: cs => if jsonWsChar c then skipWs cs else c :: cs

/-- Hex digit value, if any. -/
def hexVal (c : Char) : Option Nat :=
  if '0' ≤ c ∧ c ≤ '9' then some (c.toNat - '0'.toNat)
  else if 'a' ≤ c ∧ c ≤ 'f' then some (c.toNat - 'a'.toNat + 10)
  else if 'A' ≤ c ∧ c ≤ 'F' then some (c.toNat - 'A'.toNat + 10)
  else none

/-- Single-character JSON string escapes. -/
def escChar (c : Char) : Option Char :=
  if c = '"' then some '"'
  else if c = '\\' then some '\\'
  else if c = '/' then some '/'
  else if c = 'b' then some (Char.ofNat 8)
  else if c = 'f' then some (Char.ofNat 12)
  else if c = 'n' then some '\n'
  else if c = 'r' then some '\r'
  else if c = 't' then some '\t'
  else none

/-- Parse the body of a JSON string after the opening quote, returning
the content and the remaining input.  Control characters are rejected
(strict mode of `json.loads`); `\uXXXX` escapes map through
`Char.ofNat` (lone surrogates are approximated). -/
def parseJString : List Char → Option (List Char × List Char)
  | [] => none
  | c :: cs =>
    if c = '"' then some ([], cs)
    else if c = '\\' then
      match cs with
      | [] => none
      | e :: cs2 =>
        if e = 'u' then
          match cs2 with
          | h1 :: h2 :: h3 :: h4 :: cs3 =>
            match hexVal h1, hexVal h2, hexVal h3, hexVal h4 with
            | some a, some b, some g, some d =>
              match parseJString cs3 with
              | some (content, rest) =>
                some (Char.ofNat (((a * 16 + b) * 16 + g) * 16 + d) :: content, rest)
              | none => none
            | _, _, _, _ => none
          | _ => none
        else
          match escChar e with
          | some d =>
            match parseJString cs2 with
            | some (content, rest) => some (d :: content, rest)
            | none => none
          | none => none
    else if c.toNat < 32 then none
    else
      match parseJString cs with
      | some (content, rest) => some (c :: content, rest)
      | none => none

/-- Decimal digit test. -/
def isDig (c : Char) : Bool := '0' ≤ c ∧ c ≤ '9'

/-- Numeric value of a digit string. -/
def digitsVal (ds : List Char) : Nat :=
  ds.foldl (fun acc c => acc * 10 + (c.toNat - '0'.toNat)) 0

/-- Parse a JSON number per the RFC grammar
`-? int frac? exp?` with `int = 0 | [1-9][0-9]*`.  A number with no
fraction and no exponent is a Python int, otherwise a float. -/
def parseJNumber (s : List Char) : Option (Json × List Char) :=
  let (neg, s1) :=
    match s with
    | '-' :: rest => (true, rest)
    | _ => (false, s)
  let intDigits := s1.takeWhile isDig
  let s2 := s1.dropWhile isDig
  if intDigits = [] then none
  else if 2 ≤ intDigits.length ∧ intDigits.head? = some '0' then none
  else
    let (fracDigits, s3, hasFrac) :=
      match s2 with
      | '.' :: rest =>
        (rest.takeWhile isDig, rest.dropWhile isDig, true)
      | _ => ([], s2, false)
    if hasFrac ∧ fracDigits = [] then none
    else
      let (expVal, s4, hasExp, expOk) :=
        match s3 with
        | e :: rest =>
          if e = 'e' ∨ e = 'E' then
            let (eneg, rest2) :=
              match rest with
              | '+' :: r => (false, r)
              | '-' :: r => (true, r)
              | _ => (false, rest)
            let eds := rest2.takeWhile isDig
            let rest3 := rest2.dropWhile isDig
            if eds = [] then ((0 : Int), s3, true, false)
            else
              (if eneg then -(digitsVal eds : Int) else (digitsVal eds : Int),
                rest3, true, true)
          else ((0 : Int), s3, false, true)
        | [] => ((0 : Int), s3, false, true)
      if ¬expOk then none
      else
        let mag : ℚ :=
          ((digitsVal intDigits : ℚ) + (digitsVal fracDigits : ℚ) / ((10 : ℚ) ^ fracDigits.length))
            * ((10 : ℚ) ^ expVal)
        let q : ℚ := if neg then -mag else mag
        if hasFrac ∨ hasExp then some (.fnum q, s4)
        else some (.inum (if neg then -(digitsVal intDigits : Int) else (digitsVal intDigits : Int)), s4)

/-- Test whether the input starts with the given literal word. -/
def startsWithLit : List Char → List Char → Option (List Char)
  | [], s => some s
  | _, [] => none
  | l :: ls, c :: cs => if l = c then startsWithLit ls cs else none

mutual
/-- Recursive-descent parse of one JSON value (fuel-indexed). -/
def parseJValue : Nat → List Char → Option (Json × List Char)
  | 0, _ => none
  | fuel + 1, s =>
    match skipWs s with
    | [] => none
    | c :: cs =>
      if c = '"' then
        match parseJString cs with
        | some (content, rest) => some (.str (String.mk content), rest)
        | none => none
      else if c = '{' then
        match skipWs cs with
        | '}' :: rest => some (.obj [], rest)
        | other => match parseJMembers fuel other with
          | some (kvs, rest) => some (.obj kvs, rest)
          | none => none
      else if c = '[' then
        match skipWs cs with
        | ']' :: rest => some (.arr [], rest)
        | other => match parseJElems fuel other with
          | some (xs, rest) => some (.arr xs, rest)
          | none => none
      else if c = 't' then
        match startsWithLit ['r', 'u', 'e'] cs with
        | some rest => some (.bool true, rest)
        | none => none
      else if c = 'f' then
        match startsWithLit ['a', 'l', 's', 'e'] cs with
        | some rest => some (.bool false, rest)
        | none => none
      else if c = 'n' then
        match startsWithLit ['u', 'l', 'l'] cs with
        | some rest => some (.null, rest)
        | none => none
      else if c = '-' ∨ isDig c then parseJNumber (c :: cs)
      else none

/-- Parse one or more `"key": value` members followed by `}`. -/
def parseJMembers : Nat → List Char → Option (List (String × Json) × List Char)
  | 0, _ => none
  | fuel + 1, s =>
    match s with
    | '"' :: cs =>
      match parseJString cs with
      | some (key, rest1) =>
        match skipWs rest1 with
        | ':' :: rest2 =>
          match parseJValue fuel rest2 with
          | some (v, rest3) =>
            match skipWs rest3 with
            | ',' :: rest4 =>
              match parseJMembers fuel (skipWs rest4) with
              | some (kvs, rest5) => some ((String.mk key, v) :: kvs, rest5)
              | none => none
            | '}' :: rest4 => some ([(String.mk key, v)], rest4)
            | _ => none
          | none => none
        | _ => none
      | none => none
    | _ => none

/-- Parse one or more array elements followed by `]`. -/
def parseJElems : Nat → List Char → Option (List Json × List Char)
  | 0, _ => none
  | fuel + 1, s =>
    match parseJValue fuel s with
    | some (v, rest1) =>
      match skipWs rest1 with
      | ',' :: rest2 =>
        match parseJElems fuel rest2 with
        | some (xs, rest3) => some (v :: xs, rest3)
        | none => none
      | ']' :: rest2 => some ([v], rest2)
      | _ => none
    | none => none
end

/-- Model of Python `json.loads`: parse one JSON value and require only
whitespace to remain.  `none` models a raised `json.JSONDecodeError`. -/
def jsonLoads (s : List Char) : Option Json :=
  match parseJValue (2 * s.length + 2) s with
  | some (v, rest) => if skipWs rest = [] then some v else none
  | none => none

/-- Drop characters until the first occurrence of `p`, keeping it;
`none` when `p` does not occur. -/
def dropUntil (p : Char) : List Char → Option (List Char)
  | [] => none
  | c :: cs => if c = p then some (c :: cs) else dropUntil p cs

/-- Model of `re.search(r..., text, re.DOTALL)` from
`_parse_claude_response`: the matched span runs from the first `\x7b`
that is followed by some `\x7d` to the last `\x7d` of the text. -/
def extractJson (s : List Char) : Option (List Char) :=
  match dropUntil '{' s with
  | none => none
  | some t =>
    match dropUntil '}' t.reverse with
    | none => none
    | some u => some u.reverse

/-- Characters stripped by Python `str.strip()` (ASCII whitespace). -/
def pyWsChar (c : Char) : Bool :=
  c = ' ' || c = '\t' || c = '\n' || c = '\r' || c = '\x0b' || c = '\x0c'

/-- Model of Python `str.strip()`. -/
def pyStrip (s : String) : String :=
  String.mk (((s.toList.dropWhile pyWsChar).reverse.dropWhile pyWsChar).reverse)

/-- Lowercase a string (ASCII case mapping, matching the inputs the
code compares against). -/
def pyLower (s : String) : String :=
  String.mk (s.toList.map Char.toLower)

/-- Test whether `needle` occurs as a contiguous run inside `hay`. -/
def containsRun (needle : List Char) : List Char → Bool
  | [] => needle = []
  | c :: cs => needle.isPrefixOf (c :: cs) || containsRun needle cs

/-- Model of Python `"overloaded" in str(e).lower()`. -/
def mentionsOverloaded (msg : String) : Bool :=
  containsRun "overloaded".toList (pyLower msg).toList

/-- Fractional digits of a rational in `[0, 1)`, up to a fuel bound. -/
def fracDigits : Nat → ℚ → List Char
  | 0, _ => []
  | fuel + 1, r =>
    if r = 0 then []
    else
      let r10 := r * 10
      Char.ofNat ('0'.toNat + r10.floor.toNat) :: fracDigits fuel (r10 - r10.floor)

/-- Decimal rendering of a rational, used to model Python `str()` on a
float.  Scientific-notation cases of Python `repr` are approximated by
plain decimal expansion (no claim depends on float rendering). -/
def floatRepr (q : ℚ) : String :=
  let sign := if q < 0 then "-" else ""
  let a := |q|
  let frac := fracDigits 17 (a - a.floor)
  sign ++ toString a.floor.toNat ++ "." ++ (if frac = [] then "0" else String.mk frac)

/-- Depth-bounded `repr`-style rendering of a JSON value, used for the
container cases of Python `str()` (strings are quoted inside
containers).  The fuel bounds nesting depth; the entry point supplies
a depth no input of interest approaches. -/
def pyReprFuel : Nat → Json → String
  | _, .null => "None"
  | _, .bool b => if b then "True" else "False"
  | _, .inum n => toString n
  | _, .fnum q => floatRepr q
  | _, .str s => "\x27" ++ s ++ "\x27"
  | 0, .arr _ => "[...]"
  | fuel + 1, .arr xs => "[" ++ String.intercalate ", " (xs.map (pyReprFuel fuel)) ++ "]"
  | 0, .obj _ => "\x7b...\x7d"
  | fuel + 1, .obj kvs =>
    "\x7b" ++ String.intercalate ", "
      (kvs.map (fun kv => "\x27" ++ kv.1 ++ "\x27: " ++ pyReprFuel fuel kv.2)) ++ "\x7d"

/-- Model of Python `str()` on a parsed JSON value.  Strings pass
through verbatim; containers are approximated by a `repr`-style
rendering (no claim depends on the rendering of containers). -/
def pyStr : Json → String
  | .null => "None"
  | .bool b => if b then "True" else "False"
  | .inum n => toString n
  | .fnum q => floatRepr q
  | .str s => s
  | j => pyReprFuel 1000 j

/-- Python `min` on two ints, unfolded to a kernel-reducible if. -/
def pyMin (a b : Int) : Int := if a ≤ b then a else b

/-- Python `max` on two ints, unfolded to a kernel-reducible if. -/
def pyMax (a b : Int) : Int := if a ≤ b then b else a

/-- Integer part of a rational, truncating toward zero (Python
`int(float)`). -/
def ratTrunc (q : ℚ) : Int :=
  if q < 0 then -((-q).floor) else q.floor

/-- Parse a string as Python `int(str)` does: optional surrounding
whitespace, an optional sign, then decimal digits. -/
def pyIntOfString (s : List Char) : Option Int :=
  let t := (s.dropWhile pyWsChar).reverse.dropWhile pyWsChar |>.reverse
  let (neg, ds) :=
    match t with
    | '-' :: rest => (true, rest)
    | '+' :: rest => (false, rest)
    | _ => (false, t)
  if ds = [] ∨ ds.any (fun c => ¬isDig c) then none
  else some (if neg then -(digitsVal ds : Int) else (digitsVal ds : Int))

/-- Model of Python `int(value)` on a parsed JSON value.  A failure is
a `ValueError` (non-numeric string) or `TypeError` (non-number
object); both are modelled with `isVT = true`. -/
def pyInt (j : Json) : Except PyErr Int :=
  match j with
  | .inum n => .ok n
  | .fnum q => .ok (ratTrunc q)
  | .bool b => .ok (if b then 1 else 0)
  | .str s =>
    match pyIntOfString s.toList with
    | some n => .ok n
    | none => .error ⟨"invalid literal for int() with base 10: \x27" ++ s ++ "\x27", true⟩
  | j =>
    .error ⟨"int() argument must be a string, a bytes-like object or a real number, not \x27"
      ++ pyTypeName j ++ "\x27", true⟩

/-- Parse a string as Python `float(str)` does: optional surrounding
whitespace, an optional sign, digits with an optional decimal point and
optional exponent.  The special values `inf` and `nan` have no rational
counterpart and are approximated as failures (no claim evaluates
them). -/
def pyFloatOfString (s : List Char) : Option ℚ :=
  let t := (s.dropWhile pyWsChar).reverse.dropWhile pyWsChar |>.reverse
  let (neg, u) :=
    match t with
    | '-' :: rest => (true, rest)
    | '+' :: rest => (false, rest)
    | _ => (false, t)
  let ip := u.takeWhile isDig
  let u2 := u.dropWhile isDig
  let (fp, u3) :=
    match u2 with
    | '.' :: rest => (rest.takeWhile isDig, rest.dropWhile isDig)
    | _ => ([], u2)
  if ip = [] ∧ fp = [] then none
  else
    let base : ℚ :=
      (digitsVal ip : ℚ) + (digitsVal fp : ℚ) / ((10 : ℚ) ^ fp.length)
    let withExp : Option ℚ :=
      match u3 with
      | [] => some base
      | e :: rest =>
        if (e = 'e' ∨ e = 'E') then
          let (eneg, rest2) :=
            match rest with
            | '+' :: r => (false, r)
            | '-' :: r => (true, r)
            | _ => (false, rest)
          let eds := rest2.takeWhile isDig
          let rest3 := rest2.dropWhile isDig
          if eds = [] ∨ rest3 ≠ [] then none
          else some (base * (10 : ℚ) ^ (if eneg then -(digitsVal eds : Int) else (digitsVal eds : Int)))
        else none
    withExp.map (fun q => if neg then -q else q)

/-- Model of Python `float(value)` on a parsed JSON value. -/
def pyFloat (j : Json) : Except PyErr ℚ :=
  match j with
  | .fnum q => .ok q
  | .inum n => .ok n
  | .bool b => .ok (if b then 1 else 0)
  | .str s =>
    match pyFloatOfString s.toList with
    | some q => .ok q
    | none => .error ⟨"could not convert string to float: \x27" ++ s ++ "\x27", true⟩
  | j =>
    .error ⟨"float() argument must be a string or a real number, not \x27"
      ++ pyTypeName j ++ "\x27", true⟩

/-- Model of Python iteration `for x in value`: lists yield elements,
dicts yield their keys, strings yield one-character strings, everything
else raises `TypeError`. -/
def pyIter (j : Json) : Except PyErr (List Json) :=
  match j with
  | .arr xs => .ok xs
  | .obj kvs => .ok (kvs.map (fun kv => .str kv.1))
  | .str s => .ok (s.toList.map (fun c => .str (String.mk [c])))
  | j => .error ⟨"\x27" ++ pyTypeName j ++ "\x27 object is not iterable", true⟩

/-! Contract processor (`contract_processor.py`). -/

/-- Model of `ContractProcessor._validate_and_clean_data`.  Field order
and defaults follow the source dict literal; `int(...)` on the safety
percentage can raise, which propagates (nothing catches `ValueError`
on this path). -/
def contractValidate (data : Json) : Except PyErr Json := do
  let title := pyStr (← pyGet data "contract_title" (.str "Unknown Contract"))
  let duration := pyStr (← pyGet data "duration" (.str "Not specified"))
  let party1 := pyStr (← pyGet (← pyGet data "parties" (.obj [])) "party1" (.str "Unknown"))
  let party2 := pyStr (← pyGet (← pyGet data "parties" (.obj [])) "party2" (.str "Unknown"))
  let relationship :=
    pyStr (← pyGet (← pyGet data "parties" (.obj [])) "relationship" (.str "Not specified"))
  let details := pyStr (← pyGet data "contract_details" (.str "No details available"))
  let safetyRaw ← pyGet (← pyGet data "risk_assessment" (.obj [])) "safety_percentage" (.inum 50)
  let safetyInt ← pyInt safetyRaw
  let safety : Int := pyMin 100 (pyMax 0 safetyInt)
  let riskLevel := pyStr (← pyGet (← pyGet data "risk_assessment" (.obj [])) "risk_level" (.str "Medium"))
  let scam := pyStr (← pyGet (← pyGet data "risk_assessment" (.obj [])) "scam_likelihood" (.str "Unknown"))
  let raExplanation :=
    pyStr (← pyGet (← pyGet data "risk_assessment" (.obj [])) "explanation"
      (.str "No risk assessment available"))
  let contractExplanation := pyStr (← pyGet data "contract_explanation" (.str "No explanation available"))
  let terms ← pyGet data "legal_terms_simplified" (.arr [])
  let risky ← pyGet data "risky_parts" (.arr [])
  let missing ← pyGet data "missing_clauses" (.arr [])
  let recommended ← pyGet data "recommended_changes" (.arr [])
  let finalRecs := pyStr (← pyGet data "final_recommendations" (.str "No recommendations available"))
  pure (.obj
    [("contract_title", .str title),
     ("duration", .str duration),
     ("parties", .obj
       [("party1", .str party1),
        ("party2", .str party2),
        ("relationship", .str relationship)]),
     ("contract_details", .str details),
     ("risk_assessment", .obj
       [("safety_percentage", .inum safety),
        ("risk_level", .str riskLevel),
        ("scam_likelihood", .str scam),
        ("explanation", .str raExplanation)]),
     ("contract_explanation", .str contractExplanation),
     ("legal_terms_simplified", terms),
     ("risky_parts", risky),
     ("missing_clauses", missing),
     ("recommended_changes", recommended),
     ("final_recommendations", .str finalRecs)])

/-- Model of `ContractProcessor._create_fallback_response`. -/
def contractFallback (responseText : String) : Json :=
  .obj
    [("contract_title", .str "Document Analysis"),
     ("duration", .str "Not specified"),
     ("parties", .obj
       [("party1", .str "Unknown"),
        ("party2", .str "Unknown"),
        ("relationship", .str "Not specified")]),
     ("contract_details", .str "Could not extract specific contract details."),
     ("risk_assessment", .obj
       [("safety_percentage", .inum 50),
        ("risk_level", .str "Unknown"),
        ("scam_likelihood", .str "Unknown"),
        ("explanation", .str "Automatic analysis could not fully process this document.")]),
     ("contract_explanation", .str "The document analysis could not be completed automatically."),
     ("legal_terms_simplified", .arr []),
     ("risky_parts", .arr []),
     ("missing_clauses", .arr []),
     ("recommended_changes", .arr []),
     ("final_recommendations",
       .str "Please have this document reviewed by a qualified legal professional."),
     ("raw_response", .str responseText)]

/-- Model of `ContractProcessor._parse_claude_response`: regex-extract
a JSON span, `json.loads` it, then validate; extraction or decode
failure falls back.  Exceptions other than `json.JSONDecodeError`
raised by the validation propagate. -/
def parseClaudeContract (responseText : String) : Except PyErr Json :=
  match extractJson responseText.toList with
  | some jsonStr =>
    match jsonLoads jsonStr with
    | some data => contractValidate data
    | none => .ok (contractFallback responseText)
  | none => .ok (contractFallback responseText)

/-! Bill processor (`bill_processor.py`). -/

/-- Model of one iteration of the item-cleaning loop in
`BillProcessor._validate_and_clean_data`: `ValueError` / `TypeError`
make the item be skipped (`none`); other exceptions propagate. -/
def cleanBillItem (item : Json) : Except PyErr (Option Json) :=
  let attempt : Except PyErr Json := do
    let name := pyStr (← pyGet item "name" (.str "Unknown"))
    let amount ← pyFloat (← pyGet item "amount" (.fnum 0))
    let category := pyStr (← pyGet item "category" (.str "Unknown"))
    let notes := pyStr (← pyGet item "notes" (.str ""))
    pure (.obj
      [("name", .str name),
       ("amount", .fnum amount),
       ("category", .str category),
       ("notes", .str notes)])
  match attempt with
  | .ok cleaned => .ok (some cleaned)
  | .error e => if e.isVT then .ok none else .error e

/-- Sum of the `amount` fields of cleaned bill items.  Every item built
by `cleanBillItem` carries a float `amount`, so the default branch is
unreachable on the values this is applied to. -/
def sumAmounts (items : List Json) : ℚ :=
  items.foldl
    (fun acc it =>
      acc + (match jGetObj it "amount" with
        | some (.fnum q) => q
        | some (.inum n) => n
        | _ => 0))
    0

/-- Model of the `try: float(data.get("total", 0.0)) except
(ValueError, TypeError): sum(...)` block of the bill validation. -/
def billTotalCoerce (totalRaw : Json) (items : List Json) : Except PyErr ℚ :=
  match pyFloat totalRaw with
  | .ok q => .ok q
  | .error e => if e.isVT then .ok (sumAmounts items) else .error e

/-- Model of `BillProcessor._validate_and_clean_data`: passthrough
fields with defaults, per-item cleaning with skip-on-coercion-failure,
and the total coercion whose `ValueError` / `TypeError` fallback is the
sum of the cleaned item amounts. -/
def billValidate (data : Json) (language : String) : Except PyErr Json := do
  let currency ← pyGet data "currency" (.str "USD")
  let summary ← pyGet data "summary" (.str "")
  let observations ← pyGet data "observations" (.str "")
  let suggestions ← pyGet data "suggestions" (.str "")
  let rawItems ← pyGet data "items" (.arr [])
  let elems ← pyIter rawItems
  let cleanedOpts ← elems.mapM cleanBillItem
  let items := cleanedOpts.filterMap id
  let totalRaw ← pyGet data "total" (.fnum 0)
  let total ← billTotalCoerce totalRaw items
  pure (.obj
    [("items", .arr items),
     ("total", .fnum total),
     ("currency", currency),
     ("summary", summary),
     ("observations", observations),
     ("suggestions", suggestions),
     ("language", .str language)])

/-- Model of `BillProcessor._create_fallback_response`, localized when
the detected language lowercases to `spanish` / `español`. -/
def billFallback (responseText language : String) : Json :=
  if pyLower language = "spanish" ∨ pyLower language = "español" then
    .obj
      [("items", .arr []),
       ("total", .fnum 0),
       ("currency", .str "EUR"),
       ("summary", .str "No se pudieron extraer elementos específicos de la factura."),
       ("observations", .str "El análisis automático no pudo procesar completamente este documento."),
       ("suggestions", .str "Considere verificar manualmente los elementos de la factura."),
       ("language", .str language),
       ("raw_response", .str responseText)]
  else
    .obj
      [("items", .arr []),
       ("total", .fnum 0),
       ("currency", .str "USD"),
       ("summary", .str "Could not extract specific items from the bill."),
       ("observations", .str "Automatic analysis could not fully process this document."),
       ("suggestions", .str "Consider manually reviewing the bill items."),
       ("language", .str language),
       ("raw_response", .str responseText)]

/-- Model of `BillProcessor._parse_claude_response`. -/
def parseClaudeBill (responseText language : String) : Except PyErr Json :=
  match extractJson responseText.toList with
  | some jsonStr =>
    match jsonLoads jsonStr with
    | some data => billValidate data language
    | none => .ok (billFallback responseText language)
  | none => .ok (billFallback responseText language)

/-! Financial processor (`financial_processor.py`). -/

/-- Model of `FinancialProcessor._validate_and_clean_data`: pure
passthrough with defaults; only `personalized_insights` is
stringified. -/
def financialValidate (data : Json) : Except PyErr Json := do
  let overview ← pyGet data "financial_overview" (.obj [])
  let spending ← pyGet data "spending_breakdown" (.arr [])
  let income ← pyGet data "income_sources" (.arr [])
  let habits ← pyGet data "financial_habits" (.obj [])
  let goal ← pyGet data "goal_analysis" (.obj [])
  let recs ← pyGet data "recommendations" (.obj [])
  let plan ← pyGet data "action_plan" (.obj [])
  let optimization ← pyGet data "income_optimization" (.arr [])
  let risk ← pyGet data "risk_assessment" (.obj [])
  let insights := pyStr (← pyGet data "personalized_insights" (.str "No specific insights available"))
  pure (.obj
    [("financial_overview", overview),
     ("spending_breakdown", spending),
     ("income_sources", income),
     ("financial_habits", habits),
     ("goal_analysis", goal),
     ("recommendations", recs),
     ("action_plan", plan),
     ("income_optimization", optimization),
     ("risk_assessment", risk),
     ("personalized_insights", .str insights)])

/-- Model of `FinancialProcessor._create_fallback_response`. -/
def financialFallback (responseText : String) : Json :=
  .obj
    [("financial_overview", .obj
       [("total_income", .fnum 0),
        ("total_expenses", .fnum 0),
        ("net_savings", .fnum 0),
        ("analysis_period", .str "Unable to determine"),
        ("average_monthly_income", .fnum 0),
        ("average_monthly_expenses", .fnum 0)]),
     ("spending_breakdown", .arr []),
     ("income_sources", .arr []),
     ("financial_habits", .obj
       [("good_habits", .arr []),
        ("bad_habits", .arr []),
        ("subscriptions", .arr [])]),
     ("goal_analysis", .obj
       [("feasibility", .str "unknown"),
        ("time_to_reach_goal", .str "Unable to calculate")]),
     ("recommendations", .obj
       [("stop_doing", .arr []),
        ("start_doing", .arr []),
        ("budget_suggestions", .arr [])]),
     ("action_plan", .obj
       [("immediate_actions", .arr []),
        ("short_term_goals", .arr []),
        ("long_term_strategy", .arr [])]),
     ("income_optimization", .arr []),
     ("risk_assessment", .obj
       [("financial_stability", .str "unknown")]),
     ("personalized_insights",
       .str ("The financial analysis could not be completed automatically. "
         ++ "Please have your financial data reviewed by a qualified financial advisor.")),
     ("raw_response", .str responseText)]

/-- Model of `FinancialProcessor._parse_claude_response`. -/
def parseClaudeFinancial (responseText : String) : Except PyErr Json :=
  match extractJson responseText.toList with
  | some jsonStr =>
    match jsonLoads jsonStr with
    | some data => financialValidate data
    | none => .ok (financialFallback responseText)
  | none => .ok (financialFallback responseText)

/-! Completion endpoint boundary and the retry loop shared by the
contract and financial analyzers. -/

/-- One item of the completion response `content` list: its `type` tag
and its `text` (missing text defaults to the empty string). -/
structure ContentItem where
  itemType : String
  text : String

/-- Completion endpoint HTTP response: status code, raw body text, and
the parsed `content` list. -/
structure ApiResp where
  status : Nat
  body : String
  content : List ContentItem

/-- Concatenation of the `text` of all `type = "text"` content items,
in order, with no separator. -/
def joinTexts (content : List ContentItem) : String :=
  content.foldl (fun acc it => if it.itemType = "text" then acc ++ it.text else acc) ""

/-- Model of the `for attempt in range(max_retries)` loop of
`_analyze_with_claude` in the contract and financial processors.
`post n` is the completion call of attempt `n` (`Except.error` models a
raised transport exception).  The result is paired with a trace: the
number of completion calls made and the list of sleep durations, in
order.  On 529 with attempts left the loop sleeps and doubles the
delay; on the last attempt a 529 becomes the terminal overload error.
Any other raised exception is retried exactly when its text contains
`overloaded` (case-insensitively) and attempts remain, else it is
re-raised wrapped by `wrap`.  A fully exhausted loop would return
Python `None`; that state is unreachable from `runRetries`. -/
def runAttempts (wrap : String → String) (parse : String → Except PyErr Json)
    (post : Nat → Except String ApiResp) :
    Nat → Nat → Nat → Except String Json × Nat × List Nat
  | 0, _, _ => (.ok .null, 0, [])
  | remaining + 1, idx, delay =>
    match post idx with
    | .error emsg =>
      if mentionsOverloaded emsg ∧ remaining ≠ 0 then
        let r := runAttempts wrap parse post remaining (idx + 1) (delay * 2)
        (r.1, r.2.1 + 1, delay :: r.2.2)
      else (.error (wrap emsg), 1, [])
    | .ok resp =>
      if resp.status = 529 then
        if remaining ≠ 0 then
          let r := runAttempts wrap parse post remaining (idx + 1) (delay * 2)
          (r.1, r.2.1 + 1, delay :: r.2.2)
        else
          (.error (wrap "API is currently overloaded. Please try again in a few minutes."), 1, [])
      else if resp.status ≠ 200 then
        let emsg := "API Error: " ++ toString resp.status ++ " - " ++ resp.body
        if mentionsOverloaded emsg ∧ remaining ≠ 0 then
          let r := runAttempts wrap parse post remaining (idx + 1) (delay * 2)
          (r.1, r.2.1 + 1, delay :: r.2.2)
        else (.error (wrap emsg), 1, [])
      else
        match parse (joinTexts resp.content) with
        | .ok j => (.ok j, 1, [])
        | .error e =>
          if mentionsOverloaded e.msg ∧ remaining ≠ 0 then
            let r := runAttempts wrap parse post remaining (idx + 1) (delay * 2)
            (r.1, r.2.1 + 1, delay :: r.2.2)
          else (.error (wrap e.msg), 1, [])

/-- Entry into the retry loop: `max_retries = 3`, initial
`retry_delay = 2`. -/
def runRetries (wrap : String → String) (parse : String → Except PyErr Json)
    (post : Nat → Except String ApiResp) : Except String Json × Nat × List Nat :=
  runAttempts wrap parse post 3 0 2

/-- Model of `ContractProcessor._analyze_with_claude` (retry loop plus
response normalization), with its call / sleep trace. -/
def analyzeContract (post : Nat → Except String ApiResp) : Except String Json × Nat × List Nat :=
  runRetries (fun m => "Failed to analyze contract: " ++ m) parseClaudeContract post

/-- Model of `FinancialProcessor._analyze_with_claude`. -/
def analyzeFinancial (post : Nat → Except String ApiResp) : Except String Json × Nat × List Nat :=
  runRetries (fun m => "Failed to analyze financial data: " ++ m) parseClaudeFinancial post

/-! Public process entry points. -/

/-- External collaborators of `ContractProcessor.process_contract`:
the text extraction result (`Except.error` models a raised extraction
exception) and the completion call of each retry attempt. -/
structure ContractEnv where
  extract : Except String String
  post : Nat → Except String ApiResp

/-- Model of `ContractProcessor.process_contract`: the outer
try/except turns every raised exception into a
`success = False` mapping. -/
def processContract (env : ContractEnv) : Json :=
  match env.extract with
  | .error msg => .obj [("success", .bool false), ("error", .str msg)]
  | .ok text =>
    if pyStrip text = "" then
      .obj [("success", .bool false), ("error", .str "No text could be extracted from the file")]
    else
      match (analyzeContract env.post).1 with
      | .ok analysis => .obj [("success", .bool true), ("data", analysis)]
      | .error msg => .obj [("success", .bool false), ("error", .str msg)]

/-- External collaborators of `BillProcessor.process_bill`: text
extraction, the language-detection completion call, and the analysis
completion call. -/
structure BillEnv where
  extract : Except String String
  langPost : Except String ApiResp
  anaPost : Except String ApiResp

/-- Model of `BillProcessor._analyze_with_claude`: language detection
(non-200 falls back to English), one analysis call, normalization; the
surrounding try/except wraps any raised exception. -/
def analyzeBill (env : BillEnv) : Except String Json :=
  match env.langPost with
  | .error msg => .error ("Failed to analyze bill: " ++ msg)
  | .ok lresp =>
    let detected := if lresp.status = 200 then pyStrip (joinTexts lresp.content) else "English"
    match env.anaPost with
    | .error msg => .error ("Failed to analyze bill: " ++ msg)
    | .ok resp =>
      if resp.status ≠ 200 then
        .error ("Failed to analyze bill: API Error: " ++ toString resp.status ++ " - " ++ resp.body)
      else
        match parseClaudeBill (joinTexts resp.content) detected with
        | .ok j => .ok j
        | .error e => .error ("Failed to analyze bill: " ++ e.msg)

/-- Model of `BillProcessor.process_bill`. -/
def processBill (env : BillEnv) : Json :=
  match env.extract with
  | .error msg => .obj [("success", .bool false), ("error", .str msg)]
  | .ok text =>
    if pyStrip text = "" then
      .obj [("success", .bool false), ("error", .str "No text could be extracted from the file")]
    else
      match analyzeBill env with
      | .ok analysis => .obj [("success", .bool true), ("data", analysis)]
      | .error msg => .obj [("success", .bool false), ("error", .str msg)]

/-! CV helper (`hr_helper.py`). -/

/-- One uploaded CV file: its client-supplied filename and the text
the external extraction libraries produce for it (those helpers catch
their own exceptions and return strings). -/
structure CvFile where
  filename : String
  text : String

/-- External collaborators of `HRHelper.analyze_cvs`: the filename
sanitizer (`werkzeug.secure_filename`) and the single completion
call. -/
structure HrEnv where
  secure : String → String
  post : Except String ApiResp

/-- Lowercased extension after the last dot of a filename (Python
`filename.rsplit(".", 1)[1].lower()`), for names containing a dot. -/
def extOf (name : String) : String :=
  pyLower (String.mk (((name.toList.reverse).takeWhile (fun c => c ≠ '.')).reverse))

/-- Model of `HRHelper.allowed_file`. -/
def allowedFile (name : String) : Bool :=
  name.toList.contains '.' &&
    (extOf name = "pdf" || extOf name = "doc" || extOf name = "docx")

/-- Per-file extracted text, chosen by the sanitized filename's
extension as in `process_cv_files`. -/
def cvExtract (sanitized : String) (f : CvFile) : String :=
  if extOf sanitized = "pdf" then f.text
  else if extOf sanitized = "docx" then f.text
  else if extOf sanitized = "doc" then
    "DOC file processing requires additional libraries. Please convert to DOCX or PDF."
  else "Unsupported file format"

/-- Model of `HRHelper.process_cv_files`. -/
def processCvFiles (env : HrEnv) (files : List CvFile) : String :=
  String.intercalate "\n---------------------------------\n"
    (files.filterMap (fun f =>
      if allowedFile f.filename then
        some ("CV: " ++ env.secure f.filename ++ "\n" ++ cvExtract (env.secure f.filename) f)
      else none))

/-- Model of `HRHelper.analyze_cvs_with_claude`: always returns a
string (errors are folded into the text). -/
def analyzeCvsWithClaude (env : HrEnv) : String :=
  match env.post with
  | .error msg => "Error analyzing CVs: " ++ msg
  | .ok resp =>
    if resp.status ≠ 200 then "API Error: " ++ toString resp.status ++ " - " ++ resp.body
    else joinTexts resp.content

/-- Model of `HRHelper.analyze_cvs`, the CV pipeline entry point.  Its
failure returns are bare `\x7b"error": ...\x7d` mappings without a
`success` flag, and its success mapping carries `analysis` plus echo
fields rather than a `data` field. -/
def analyzeCvs (env : HrEnv) (jobRole : String) (files : List CvFile) (topCount : String) : Json :=
  if jobRole = "" then .obj [("error", .str "Job role is required")]
  else if files.isEmpty || files.all (fun f => f.filename = "") then
    .obj [("error", .str "Please upload at least one CV file")]
  else
    let cvTexts := processCvFiles env files
    if cvTexts = "" then .obj [("error", .str "No valid CV files found")]
    else
      .obj
        [("success", .bool true),
         ("job_role", .str jobRole),
         ("top_count", .str topCount),
         ("files_processed", .inum ((files.filter (fun f => f.filename ≠ "")).length : Int)),
         ("analysis", .str (analyzeCvsWithClaude env))]

/-! Conversation store (`conversation.py`). -/

/-- One stored conversation turn (the wall-clock timestamp the source
attaches is environmental and irrelevant to the store's logic). -/
structure Turn where
  role : String
  content : String
deriving DecidableEq

/-- Python `lst[-m:]`: the last `m` elements — except that `m = 0`
yields the whole list (`lst[-0:]` is `lst[0:]`). -/
def pyLastSlice (m : Nat) (l : List Turn) : List Turn :=
  if m = 0 then l else l.drop (l.length - m)

/-- Model of `ConversationManager.add_message` on one session with
history cap `N` (`Config.MAX_CONVERSATION_HISTORY`): append, then trim
once the length exceeds `N + 1`, pinning a leading system turn. -/
def addMessage (N : Nat) (conv : List Turn) (role content : String) : List Turn :=
  let conv2 := conv ++ [⟨role, content⟩]
  if N + 1 < conv2.length then
    match conv2 with
    | [] => []
    | t :: _ => if t.role = "system" then t :: pyLastSlice N conv2 else pyLastSlice N conv2
  else conv2

/-- Repeated `add_message` calls on one session. -/
def addMessages (N : Nat) (conv : List Turn) (msgs : List (String × String)) : List Turn :=
  msgs.foldl (fun c m => addMessage N c m.1 m.2) conv

/-- Model of `ConversationManager.create_conversation`. -/
def createConversation (systemMessage : Option String) : List Turn :=
  match systemMessage with
  | some s => [⟨"system", s⟩]
  | none => []

/-! Chat service (`claude_service.py`). -/

/-- Model of `ClaudeService.get_response`, instrumented with the
number of completion requests issued.  `api` is the outcome of the one
possible completion call. -/
def getResponse (conv : List Turn) (api : Except String ApiResp) : String × Nat :=
  if conv.filter (fun m => m.role = "user") = [] then
    ("¡Hola! ¿En qué puedo ayudarte hoy? 😊", 0)
  else
    match api with
    | .error msg => ("Lo siento, estoy teniendo problemas técnicos. 😔 Error: " ++ msg, 1)
    | .ok resp =>
      if resp.status ≠ 200 then
        ("Error: API request failed with status " ++ toString resp.status
          ++ ". Details: " ++ resp.body, 1)
      else (joinTexts resp.content, 1)

/-! Observation helpers used to state properties. -/

/-- Whether an `Except` computation succeeded. -/
def exceptIsOk {ε α : Type} : Except ε α → Bool
  | .ok _ => true
  | .error _ => false

/-- Field of the result of a fallible normalization, when it
succeeded and the field is present. -/
def okField (r : Except PyErr Json) (k : String) : Option Json :=
  match r with
  | .ok j => jGetObj j k
  | .error _ => none

/-- The `risk_assessment.safety_percentage` field of a contract
normalization result. -/
def safetyOf (r : Except PyErr Json) : Option Json :=
  (okField r "risk_assessment").bind (fun ra => jGetObj ra "safety_percentage")

/-- Whether a character span is a well-formed JSON object text:
it starts with `\x7b`, ends with `\x7d`, and `json.loads` accepts it
as an object. -/
def isObjCandidate (cs : List Char) : Bool :=
  cs.head? == some '{' && cs.getLast? == some '}' &&
    (match jsonLoads cs with
     | some (.obj _) => true
     | _ => false)

/-- All spans `(i, j)` of a text whose content is a well-formed JSON
object text; the claim that a reply contains exactly one well-formed
JSON object is read as this list having exactly one element. -/
def objectSpans (s : List Char) : List (Nat × Nat) :=
  (List.range (s.length + 1)).flatMap (fun i =>
    (List.range (s.length + 1)).filterMap (fun j =>
      if i < j ∧ isObjCandidate ((s.drop i).take (j - i)) = true then some (i, j) else none))

/-- Result shape demanded by the spec for every pipeline entry point,
written from the spec's words: a mapping with a boolean `success`, no
keys beyond `success` / `data` / `error`, and a string `error` when
present. -/
def specResultShape (j : Json) : Bool :=
  match j with
  | .obj kvs =>
    (match jLookup kvs "success" with
     | some (.bool _) => true
     | _ => false) &&
    kvs.all (fun kv => kv.1 == "success" || kv.1 == "data" || kv.1 == "error") &&
    (match jLookup kvs "error" with
     | none => true
     | some (.str _) => true
     | _ => false)
  | _ => false

/-- The two result shapes `HRHelper.analyze_cvs` actually produces. -/
def hrResultShape (j : Json) : Bool :=
  match j with
  | .obj [("error", .str _)] => true
  | .obj [("success", .bool true), ("job_role", .str _), ("top_count", .str _),
      ("files_processed", .inum _), ("analysis", .str _)] => true
  | _ => false

/-- Top-level fields of the contract task schema, as produced by
`contractValidate` on every successful normalization. -/
def contractSchemaFields : List String :=
  ["contract_title", "duration", "parties", "contract_details", "risk_assessment",
   "contract_explanation", "legal_terms_simplified", "risky_parts", "missing_clauses",
   "recommended_changes", "final_recommendations"]

/-- Top-level fields of the financial task schema, as produced by
`financialValidate` on every successful normalization. -/
def financialSchemaFields : List String :=
  ["financial_overview", "spending_breakdown", "income_sources", "financial_habits",
   "goal_analysis", "recommendations", "action_plan", "income_optimization",
   "risk_assessment", "personalized_insights"]

/-! Claim theorems. -/

/-- C3 counterexample: a non-numeric `safety_percentage` such as the
string `high` does not fall back to the schema default of 50 — the
`int()` coercion raises a `ValueError`, so normalization fails instead
of producing a result. -/
theorem c3_counterexample :
    exceptIsOk (contractValidate
      (.obj [("risk_assessment", .obj [("safety_percentage", .str "high")])])) = false ∧
    safetyOf (contractValidate
      (.obj [("risk_assessment", .obj [("safety_percentage", .str "high")])])) ≠ some (.inum 50) := by
  exact ⟨rfl, by intro h; exact Option.noConfusion h⟩

/-- C3 (amended): a parsed `safety_percentage` of 150 clamps to 100,
one of -5 clamps to 0, and an absent one defaults to 50; but a
non-numeric value such as the string `high` raises a `ValueError`
(propagated out of normalization) rather than falling back to the
schema default. -/
theorem c3_safety_clamping :
    safetyOf (contractValidate
      (.obj [("risk_assessment", .obj [("safety_percentage", .inum 150)])])) = some (.inum 100) ∧
    safetyOf (contractValidate
      (.obj [("risk_assessment", .obj [("safety_percentage", .inum (-5))])])) = some (.inum 0) ∧
    safetyOf (contractValidate (.obj [])) = some (.inum 50) ∧
    contractValidate (.obj [("risk_assessment", .obj [("safety_percentage", .str "high")])])
      = .error ⟨"invalid literal for int() with base 10: \x27high\x27", true⟩ :=
  ⟨rfl, rfl, rfl, rfl⟩

/-- Dropping until a character not present in a leading block skips
that block. -/
theorem dropUntil_append_not_mem (p : Char) (a l : List Char) (h : p ∉ a) :
    dropUntil p (a ++ l) = dropUntil p l := by
  induction a with
  | nil => rfl
  | cons c cs ih =>
    simp only [List.mem_cons, not_or] at h
    show dropUntil p (c :: (cs ++ l)) = dropUntil p l
    rw [dropUntil, if_neg (Ne.symm h.1)]
    exact ih h.2

/-- Dropping until the head character keeps the whole list. -/
theorem dropUntil_cons_self (p : Char) (l : List Char) :
    dropUntil p (p :: l) = some (p :: l) := by
  simp [dropUntil]

/-- Inversion for `dropUntil`: a successful drop splits the input. -/
theorem dropUntil_eq_some (p : Char) (s t : List Char) (h : dropUntil p s = some t) :
    ∃ a, s = a ++ t ∧ p ∉ a ∧ t.head? = some p := by
  induction s with
  | nil => simp [dropUntil] at h
  | cons c cs ih =>
    by_cases hc : c = p
    · subst hc
      rw [dropUntil_cons_self] at h
      have he : c :: cs = t := Option.some.inj h
      refine ⟨[], by simpa using he, by simp, ?_⟩
      rw [← he]
      rfl
    · rw [dropUntil, if_neg hc] at h
      obtain ⟨a, ha, hna, hh⟩ := ih h
      refine ⟨c :: a, by simp [ha], ?_, hh⟩
      simp only [List.mem_cons, not_or]
      exact ⟨fun hp => hc hp.symm, hna⟩

/-- Unfolding of `extractJson` when both drops succeed. -/
theorem extractJson_eq (s t u0 : List Char) (h1 : dropUntil '{' s = some t)
    (h2 : dropUntil '}' t.reverse = some u0) : extractJson s = some u0.reverse := by
  simp only [extractJson, h1, h2]

/-- The extraction heuristic recovers a brace-delimited block exactly
when no `\x7b` precedes it and no `\x7d` follows it. -/
theorem extractJson_wrapped (pre mid post : List Char)
    (hpre : '{' ∉ pre) (hpost : '}' ∉ post) :
    extractJson (pre ++ ('{' :: mid ++ ['}']) ++ post) = some ('{' :: mid ++ ['}']) := by
  have h1 : dropUntil '{' (pre ++ ('{' :: mid ++ ['}']) ++ post)
      = some ('{' :: (mid ++ ['}'] ++ post)) := by
    have e1 : pre ++ ('{' :: mid ++ ['}']) ++ post = pre ++ ('{' :: (mid ++ ['}'] ++ post)) := by
      simp
    rw [e1, dropUntil_append_not_mem _ _ _ hpre, dropUntil_cons_self]
  have h2 : dropUntil '}' (('{' :: (mid ++ ['}'] ++ post)).reverse)
      = some ('}' :: (mid.reverse ++ ['{'])) := by
    have e2 : ('{' :: (mid ++ ['}'] ++ post)).reverse
        = post.reverse ++ ('}' :: (mid.reverse ++ ['{'])) := by
      simp
    rw [e2, dropUntil_append_not_mem _ _ _ (by simpa using hpost), dropUntil_cons_self]
  have := extractJson_eq _ _ _ h1 h2
  rw [this]
  simp

/-- A successful extraction implies the text has a `\x7b` strictly
before some `\x7d`. -/
theorem extractJson_some_pair (s u : List Char) (h : extractJson s = some u) :
    ∃ i j : Nat, i < j ∧ s[i]? = some '{' ∧ s[j]? = some '}' := by
  cases h1 : dropUntil '{' s with
  | none => exact absurd h (by simp only [extractJson, h1]; simp)
  | some t =>
    simp only [extractJson, h1] at h
    cases h2 : dropUntil '}' t.reverse with
    | none => rw [h2] at h; exact absurd h (by simp)
    | some u0 =>
      obtain ⟨a, ha, hna, hha⟩ := dropUntil_eq_some _ _ _ h1
      obtain ⟨b, hb, hnb, hhb⟩ := dropUntil_eq_some _ _ _ h2
      obtain ⟨u1, rfl⟩ : ∃ u1, u0 = '}' :: u1 := by
        cases u0 with
        | nil => simp at hhb
        | cons x xs =>
          refine ⟨xs, ?_⟩
          have := Option.some.inj hhb
          rw [this]
      have ht : t = u1.reverse ++ ['}'] ++ b.reverse := by
        have := congrArg List.reverse hb
        simpa using this
      have hu1 : u1 ≠ [] := by
        intro hnil
        subst hnil
        rw [ht] at hha
        simp at hha
      refine ⟨a.length, a.length + u1.length, ?_, ?_, ?_⟩
      · have := List.length_pos.mpr hu1
        omega
      · rw [ha, List.getElem?_append_right (by omega)]
        simp only [Nat.sub_self]
        rw [← List.head?_eq_getElem?]
        exact hha
      · rw [ha, List.getElem?_append_right (by omega), ht]
        have e3 : a.length + u1.length - a.length = u1.length := by omega
        rw [e3, List.append_assoc, List.getElem?_append_right (by simp)]
        simp

/-- A text with no opening brace has no brace pair. -/
theorem no_pair_of_no_open (l : List Char) (h : '{' ∉ l) :
    ∀ i j : Nat, i < j → ¬(l[i]? = some '{' ∧ l[j]? = some '}') := by
  intro i j _ hp
  obtain ⟨hlt, heq⟩ := List.getElem?_eq_some.mp hp.1
  exact h (heq ▸ List.getElem_mem hlt)

/-- C5: whenever JSON extraction fails (in particular for any text
with no `\x7b`-before-`\x7d` pair) or JSON decoding fails, the bill
response parser returns the Fallback Builder result — no error — and
that fallback preserves the raw reply verbatim under `raw_response`. -/
theorem c5_fallback_on_no_json (text language : String) :
    (extractJson text.toList = none →
      parseClaudeBill text language = .ok (billFallback text language)) ∧
    (∀ js, extractJson text.toList = some js → jsonLoads js = none →
      parseClaudeBill text language = .ok (billFallback text language)) ∧
    ((∀ i j : Nat, i < j →
        ¬(text.toList[i]? = some '{' ∧ text.toList[j]? = some '}')) →
      extractJson text.toList = none) ∧
    jGetObj (billFallback text language) "raw_response" = some (.str text) := by
  refine ⟨?_, ?_, ?_, ?_⟩
  · intro h
    simp only [parseClaudeBill, h]
  · intro js h1 h2
    simp only [parseClaudeBill, h1, h2]
  · intro hno
    cases hx : extractJson text.toList with
    | none => rfl
    | some u =>
      obtain ⟨i, j, hij, h1, h2⟩ := extractJson_some_pair _ _ hx
      exact absurd ⟨h1, h2⟩ (hno i j hij)
  · rw [billFallback]
    split <;> rfl

/-- C5 witness: a concrete brace-free reply takes the fallback path
and keeps the raw text. -/
theorem c5_fallback_on_no_json_witness :
    extractJson "no json here".toList = none ∧
    parseClaudeBill "no json here" "English" = .ok (billFallback "no json here" "English") ∧
    jGetObj (billFallback "no json here" "English") "raw_response" = some (.str "no json here") :=
  ⟨(c5_fallback_on_no_json "no json here" "English").2.2.1
      (no_pair_of_no_open _ (by decide)),
    (c5_fallback_on_no_json "no json here" "English").1 rfl,
    (c5_fallback_on_no_json "no json here" "English").2.2.2⟩

/-- C2 counterexample: the reply `\x7b"a":1\x7d\x7d` contains exactly
one well-formed JSON object (the span `(0, 7)`, i.e. `\x7b"a":1\x7d`),
yet the parser's greedy first-`\x7b`-to-last-`\x7d` heuristic grabs
the whole text, `json.loads` rejects it, and the contract parser
returns the fallback instead of that object's parse. -/
theorem c2_counterexample :
    objectSpans "\x7b\x22a\x22:1\x7d\x7d".toList = [(0, 7)] ∧
    ("\x7b\x22a\x22:1\x7d\x7d".toList.drop 0).take 7 = "\x7b\x22a\x22:1\x7d".toList ∧
    extractJson "\x7b\x22a\x22:1\x7d\x7d".toList = some "\x7b\x22a\x22:1\x7d\x7d".toList ∧
    "\x7b\x22a\x22:1\x7d\x7d".toList ≠ "\x7b\x22a\x22:1\x7d".toList ∧
    parseClaudeContract "\x7b\x22a\x22:1\x7d\x7d" = .ok (contractFallback "\x7b\x22a\x22:1\x7d\x7d") :=
  ⟨by decide, by decide, rfl, by decide, rfl⟩

/-- C2 (amended): for every reply of the form `pre ++ obj ++ post`
where `obj` starts with `\x7b`, ends with `\x7d` and parses as JSON,
`pre` contains no `\x7b` and `post` contains no `\x7d` (in particular
whenever the surrounding prose has no braces), the parser extracts
exactly `obj` byte-for-byte — the span from the first `\x7b` to the
last `\x7d`, taken greedily — and returns the validated parse of
`obj`, in both the bill and contract pipelines. -/
theorem c2_extraction (pre mid post : List Char) (language : String) (v : Json)
    (hpre : '{' ∉ pre) (hpost : '}' ∉ post)
    (hload : jsonLoads ('{' :: mid ++ ['}']) = some v) :
    extractJson (pre ++ ('{' :: mid ++ ['}']) ++ post) = some ('{' :: mid ++ ['}']) ∧
    parseClaudeContract (String.mk (pre ++ ('{' :: mid ++ ['}']) ++ post))
      = contractValidate v ∧
    parseClaudeBill (String.mk (pre ++ ('{' :: mid ++ ['}']) ++ post)) language
      = billValidate v language := by
  have he := extractJson_wrapped pre mid post hpre hpost
  have ht : (String.mk (pre ++ ('{' :: mid ++ ['}']) ++ post)).toList
      = pre ++ ('{' :: mid ++ ['}']) ++ post := rfl
  refine ⟨he, ?_, ?_⟩
  · simp only [parseClaudeContract, ht, he, hload]
  · simp only [parseClaudeBill, ht, he, hload]

/-- C2 witness: prose around a one-field object is stripped exactly. -/
theorem c2_extraction_witness :
    '{' ∉ "Reply: ".toList ∧ '}' ∉ " end.".toList ∧
    jsonLoads ('{' :: "\x22a\x22:1".toList ++ ['}']) = some (.obj [("a", .inum 1)]) ∧
    parseClaudeContract
        (String.mk ("Reply: ".toList ++ ('{' :: "\x22a\x22:1".toList ++ ['}']) ++ " end.".toList))
      = contractValidate (.obj [("a", .inum 1)]) :=
  ⟨by decide, by decide, rfl,
    (c2_extraction "Reply: ".toList "\x22a\x22:1".toList " end.".toList "English"
      (.obj [("a", .inum 1)]) (by decide) (by decide) rfl).2.1⟩

/-- C6: for every raw reply text, the contract and financial fallback
results satisfy the schema invariant — every schema field present, the
numeric `safety_percentage` at its in-bounds default 50, numeric
financial defaults at 0.0, every collection an empty list — and retain
the raw reply verbatim. -/
theorem c6_fallback_schema_invariant (text : String) :
    contractSchemaFields.all (fun k => (jGetObj (contractFallback text) k).isSome) = true ∧
    (jGetObj (contractFallback text) "risk_assessment").bind
        (fun ra => jGetObj ra "safety_percentage") = some (.inum 50) ∧
    ((0 : Int) ≤ 50 ∧ (50 : Int) ≤ 100) ∧
    jGetObj (contractFallback text) "legal_terms_simplified" = some (.arr []) ∧
    jGetObj (contractFallback text) "risky_parts" = some (.arr []) ∧
    jGetObj (contractFallback text) "missing_clauses" = some (.arr []) ∧
    jGetObj (contractFallback text) "recommended_changes" = some (.arr []) ∧
    financialSchemaFields.all (fun k => (jGetObj (financialFallback text) k).isSome) = true ∧
    jGetObj (financialFallback text) "spending_breakdown" = some (.arr []) ∧
    jGetObj (financialFallback text) "income_sources" = some (.arr []) ∧
    jGetObj (financialFallback text) "income_optimization" = some (.arr []) ∧
    (jGetObj (financialFallback text) "financial_overview").bind
        (fun o => jGetObj o "total_income") = some (.fnum 0) ∧
    (jGetObj (financialFallback text) "financial_habits").bind
        (fun o => jGetObj o "good_habits") = some (.arr []) ∧
    (jGetObj (financialFallback text) "action_plan").bind
        (fun o => jGetObj o "immediate_actions") = some (.arr []) ∧
    jGetObj (contractFallback text) "raw_response" = some (.str text) ∧
    jGetObj (financialFallback text) "raw_response" = some (.str text) :=
  ⟨rfl, rfl, by norm_num, rfl, rfl, rfl, rfl, rfl, rfl, rfl, rfl, rfl, rfl, rfl, rfl, rfl⟩

/-- Retry loop, scenario `overloaded twice then success`: three calls,
sleeps 2 then 4, and the normalized payload is returned. -/
theorem runRetries_overload_twice (wrap : String → String) (parse : String → Except PyErr Json)
    (post : Nat → Except String ApiResp) (b0 b1 : String) (c0 c1 : List ContentItem)
    (resp2 : ApiResp) (j : Json)
    (h0 : post 0 = .ok ⟨529, b0, c0⟩) (h1 : post 1 = .ok ⟨529, b1, c1⟩)
    (h2 : post 2 = .ok resp2) (hst : resp2.status = 200)
    (hok : parse (joinTexts resp2.content) = .ok j) :
    runRetries wrap parse post = (.ok j, 3, [2, 4]) := by
  simp only [runRetries, runAttempts, h0, h1, h2, hst, hok]
  norm_num

/-- Retry loop, scenario `overloaded on every call`: three calls and a
terminal overload error. -/
theorem runRetries_overload_always (wrap : String → String) (parse : String → Except PyErr Json)
    (post : Nat → Except String ApiResp) (b0 b1 b2 : String) (c0 c1 c2 : List ContentItem)
    (h0 : post 0 = .ok ⟨529, b0, c0⟩) (h1 : post 1 = .ok ⟨529, b1, c1⟩)
    (h2 : post 2 = .ok ⟨529, b2, c2⟩) :
    runRetries wrap parse post
      = (.error (wrap "API is currently overloaded. Please try again in a few minutes."), 3, [2, 4]) := by
  simp only [runRetries, runAttempts, h0, h1, h2]
  norm_num

/-- Retry loop, scenario `non-overload failure whose message does not
mention overload`: raised immediately after one call, no sleeps. -/
theorem runRetries_other_failure (wrap : String → String) (parse : String → Except PyErr Json)
    (post : Nat → Except String ApiResp) (st : Nat) (b : String) (c : List ContentItem)
    (h0 : post 0 = .ok ⟨st, b, c⟩) (hne : st ≠ 529) (hne2 : st ≠ 200)
    (hmo : mentionsOverloaded ("API Error: " ++ toString st ++ " - " ++ b) = false) :
    runRetries wrap parse post
      = (.error (wrap ("API Error: " ++ toString st ++ " - " ++ b)), 1, []) := by
  simp only [runRetries, runAttempts, h0, hne, hne2, hmo]
  norm_num [hne, hne2]

/-- C1 counterexample: a non-overload failure (HTTP 500) whose body
text contains the word `overloaded` is not raised immediately — the
string-matching `except` clause retries it like an overload: three
calls and two sleeps instead of one call and none. -/
theorem c1_counterexample :
    analyzeContract (fun _ => .ok ⟨500, "overloaded", []⟩)
      = (.error "Failed to analyze contract: API Error: 500 - overloaded", 3, [2, 4]) ∧
    (3 : Nat) ≠ 1 :=
  ⟨rfl, by norm_num⟩

/-- C1 (amended): in the contract and financial pipelines, two
overloads then a success make exactly 3 calls with sleeps 2 then 4 and
return the normalized success payload; persistent overload makes
exactly 3 calls and raises the terminal overload error; a non-overload
failure is raised immediately without further call or sleep provided
its error text does not contain `overloaded` (a failure whose text
mentions `overloaded` is retried like an overload). -/
theorem c1_retry_policy :
    (∀ (post : Nat → Except String ApiResp) b0 b1 c0 c1 (resp2 : ApiResp) (j : Json),
      post 0 = .ok ⟨529, b0, c0⟩ → post 1 = .ok ⟨529, b1, c1⟩ → post 2 = .ok resp2 →
      resp2.status = 200 → parseClaudeContract (joinTexts resp2.content) = .ok j →
      analyzeContract post = (.ok j, 3, [2, 4])) ∧
    (∀ (post : Nat → Except String ApiResp) b0 b1 c0 c1 (resp2 : ApiResp) (j : Json),
      post 0 = .ok ⟨529, b0, c0⟩ → post 1 = .ok ⟨529, b1, c1⟩ → post 2 = .ok resp2 →
      resp2.status = 200 → parseClaudeFinancial (joinTexts resp2.content) = .ok j →
      analyzeFinancial post = (.ok j, 3, [2, 4])) ∧
    (∀ (post : Nat → Except String ApiResp) b0 b1 b2 c0 c1 c2,
      post 0 = .ok ⟨529, b0, c0⟩ → post 1 = .ok ⟨529, b1, c1⟩ → post 2 = .ok ⟨529, b2, c2⟩ →
      analyzeContract post =
        (.error ("Failed to analyze contract: "
          ++ "API is currently overloaded. Please try again in a few minutes."), 3, [2, 4])) ∧
    (∀ (post : Nat → Except String ApiResp) b0 b1 b2 c0 c1 c2,
      post 0 = .ok ⟨529, b0, c0⟩ → post 1 = .ok ⟨529, b1, c1⟩ → post 2 = .ok ⟨529, b2, c2⟩ →
      analyzeFinancial post =
        (.error ("Failed to analyze financial data: "
          ++ "API is currently overloaded. Please try again in a few minutes."), 3, [2, 4])) ∧
    (∀ (post : Nat → Except String ApiResp) (st : Nat) b c,
      post 0 = .ok ⟨st, b, c⟩ → st ≠ 529 → st ≠ 200 →
      mentionsOverloaded ("API Error: " ++ toString st ++ " - " ++ b) = false →
      analyzeContract post =
        (.error ("Failed to analyze contract: API Error: " ++ toString st ++ " - " ++ b), 1, [])) ∧
    (∀ (post : Nat → Except String ApiResp) (st : Nat) b c,
      post 0 = .ok ⟨st, b, c⟩ → st ≠ 529 → st ≠ 200 →
      mentionsOverloaded ("API Error: " ++ toString st ++ " - " ++ b) = false →
      analyzeFinancial post =
        (.error ("Failed to analyze financial data: API Error: " ++ toString st ++ " - " ++ b), 1, [])) := by
  refine ⟨?_, ?_, ?_, ?_, ?_, ?_⟩
  · intro post b0 b1 c0 c1 resp2 j h0 h1 h2 hst hok
    exact runRetries_overload_twice _ _ post b0 b1 c0 c1 resp2 j h0 h1 h2 hst hok
  · intro post b0 b1 c0 c1 resp2 j h0 h1 h2 hst hok
    exact runRetries_overload_twice _ _ post b0 b1 c0 c1 resp2 j h0 h1 h2 hst hok
  · intro post b0 b1 b2 c0 c1 c2 h0 h1 h2
    exact runRetries_overload_always _ _ post b0 b1 b2 c0 c1 c2 h0 h1 h2
  · intro post b0 b1 b2 c0 c1 c2 h0 h1 h2
    exact runRetries_overload_always _ _ post b0 b1 b2 c0 c1 c2 h0 h1 h2
  · intro post st b c h0 hne hne2 hmo
    exact runRetries_other_failure _ _ post st b c h0 hne hne2 hmo
  · intro post st b c h0 hne hne2 hmo
    exact runRetries_other_failure _ _ post st b c h0 hne hne2 hmo

/-- Contract normalization of an empty JSON object: every field takes
its schema default. -/
def contractDefaults : Json :=
  .obj
    [("contract_title", .str "Unknown Contract"),
     ("duration", .str "Not specified"),
     ("parties", .obj
       [("party1", .str "Unknown"),
        ("party2", .str "Unknown"),
        ("relationship", .str "Not specified")]),
     ("contract_details", .str "No details available"),
     ("risk_assessment", .obj
       [("safety_percentage", .inum 50),
        ("risk_level", .str "Medium"),
        ("scam_likelihood", .str "Unknown"),
        ("explanation", .str "No risk assessment available")]),
     ("contract_explanation", .str "No explanation available"),
     ("legal_terms_simplified", .arr []),
     ("risky_parts", .arr []),
     ("missing_clauses", .arr []),
     ("recommended_changes", .arr []),
     ("final_recommendations", .str "No recommendations available")]

/-- Completion behavior that reports overload twice and then succeeds
with an empty JSON object reply. -/
def c1PostA : Nat → Except String ApiResp := fun n =>
  if n = 2 then .ok ⟨200, "", [⟨"text", "\x7b\x7d"⟩]⟩ else .ok ⟨529, "Overloaded", []⟩

/-- C1 witness: concrete runs of the three scenarios. -/
theorem c1_retry_policy_witness :
    (c1PostA 0 = .ok ⟨529, "Overloaded", []⟩ ∧ c1PostA 1 = .ok ⟨529, "Overloaded", []⟩ ∧
      c1PostA 2 = .ok ⟨200, "", [⟨"text", "\x7b\x7d"⟩]⟩ ∧
      parseClaudeContract (joinTexts [⟨"text", "\x7b\x7d"⟩]) = .ok contractDefaults ∧
      analyzeContract c1PostA = (.ok contractDefaults, 3, [2, 4])) ∧
    analyzeContract (fun _ => .ok ⟨529, "Overloaded", []⟩) =
      (.error ("Failed to analyze contract: "
        ++ "API is currently overloaded. Please try again in a few minutes."), 3, [2, 4]) ∧
    (mentionsOverloaded ("API Error: " ++ toString (404 : Nat) ++ " - " ++ "not found") = false ∧
      analyzeContract (fun _ => .ok ⟨404, "not found", []⟩) =
        (.error ("Failed to analyze contract: API Error: "
          ++ toString (404 : Nat) ++ " - " ++ "not found"), 1, [])) :=
  ⟨⟨rfl, rfl, rfl, rfl,
      c1_retry_policy.1 c1PostA "Overloaded" "Overloaded" [] [] ⟨200, "", [⟨"text", "\x7b\x7d"⟩]⟩
        contractDefaults rfl rfl rfl rfl rfl⟩,
    c1_retry_policy.2.2.1 (fun _ => .ok ⟨529, "Overloaded", []⟩) "Overloaded" "Overloaded"
      "Overloaded" [] [] [] rfl rfl rfl,
    ⟨rfl,
      c1_retry_policy.2.2.2.2.1 (fun _ => .ok ⟨404, "not found", []⟩) 404 "not found" []
        rfl (by norm_num) (by norm_num) rfl⟩⟩

/-- Line items of the bill-total scenario: amounts 10.5 and 4.25. -/
def c4Items : Json :=
  .arr [.obj [("amount", .fnum (10.5 : ℚ))], .obj [("amount", .fnum (4.25 : ℚ))]]

/-- The cleaned form of `c4Items` produced by the item loop. -/
def c4Cleaned : List Json :=
  [.obj [("name", .str "Unknown"), ("amount", .fnum (10.5 : ℚ)),
     ("category", .str "Unknown"), ("notes", .str "")],
   .obj [("name", .str "Unknown"), ("amount", .fnum (4.25 : ℚ)),
     ("category", .str "Unknown"), ("notes", .str "")]]

/-- C4 counterexample: with the line items 10.5 and 4.25 and the
`total` field absent, normalization sets the total to the literal
default 0.0 (the dict-get default is coerced successfully), not to the
item sum 14.75. -/
theorem c4_counterexample :
    okField (billValidate (.obj [("items", c4Items)]) "English") "total"
      = some (.fnum 0) ∧ (0 : ℚ) ≠ 14.75 :=
  ⟨rfl, by norm_num⟩

/-- C4 (amended): with line items 10.5 and 4.25, a `total` field that
is present but non-numeric (a string `float()` rejects, or `null`)
falls back to the sum 14.75 of the item amounts; an absent `total`
yields the literal default 0.0 instead. -/
theorem c4_total_fallback :
    (∀ s : String, pyFloatOfString s.toList = none →
      okField (billValidate (.obj [("items", c4Items), ("total", .str s)]) "English") "total"
        = some (.fnum (14.75 : ℚ))) ∧
    okField (billValidate (.obj [("items", c4Items), ("total", .null)]) "English") "total"
      = some (.fnum ((0 : ℚ) + 10.5 + 4.25)) ∧
    ((0 : ℚ) + 10.5 + 4.25) = 14.75 ∧
    okField (billValidate (.obj [("items", c4Items)]) "English") "total" = some (.fnum 0) := by
  refine ⟨?_, rfl, by norm_num, rfl⟩
  intro s h
  have h2 : billValidate (.obj [("items", c4Items), ("total", .str s)]) "English"
      = (match billTotalCoerce (.str s) c4Cleaned with
        | .ok q => .ok (.obj
            [("items", .arr c4Cleaned),
             ("total", .fnum q),
             ("currency", .str "USD"), ("summary", .str ""), ("observations", .str ""),
             ("suggestions", .str ""), ("language", .str "English")])
        | .error e => .error e) := by
    cases hb : billTotalCoerce (.str s) c4Cleaned <;>
      · simp only [billValidate, c4Items, bind, Except.bind, pyGet, dictGetD, jLookup,
          pyIter, List.mapM, List.mapM.loop, cleanBillItem, pyStr, pyFloat, sumAmounts,
          String.reduceEq, Option.getD, List.filterMap, id, pure, Except.pure, reduceIte]
        rw [show [Json.obj [("name", .str "Unknown"), ("amount", .fnum (10.5 : ℚ)),
            ("category", .str "Unknown"), ("notes", .str "")],
          .obj [("name", .str "Unknown"), ("amount", .fnum (4.25 : ℚ)),
            ("category", .str "Unknown"), ("notes", .str "")]] = c4Cleaned from rfl]
        rw [hb]
  have h3 : billTotalCoerce (.str s) c4Cleaned = .ok ((0 : ℚ) + 10.5 + 4.25) := by
    rw [billTotalCoerce.eq_def]
    simp only [pyFloat, String.toList] at h ⊢
    rw [h]
    rfl
  rw [okField.eq_def, h2, h3]
  have h4 : ((0 : ℚ) + 10.5 + 4.25) = (14.75 : ℚ) := by norm_num
  rw [h4]
  rfl

/-- C4 witness: the concrete non-numeric total `N/A` takes the
sum-of-amounts fallback. -/
theorem c4_total_fallback_witness :
    pyFloatOfString "N/A".toList = none ∧
    okField (billValidate (.obj [("items", c4Items), ("total", .str "N/A")]) "English") "total"
      = some (.fnum (14.75 : ℚ)) :=
  ⟨rfl, c4_total_fallback.1 "N/A" rfl⟩

/-- C10: for every conversation list with no user-role message,
`get_response` returns the fixed Spanish greeting and issues no
completion request. -/
theorem c10_no_user_greeting (conv : List Turn) (api : Except String ApiResp)
    (h : conv.all (fun m => m.role ≠ "user") = true) :
    getResponse conv api = ("¡Hola! ¿En qué puedo ayudarte hoy? 😊", 0) := by
  have hf : conv.filter (fun m => m.role = "user") = [] := by
    rw [List.filter_eq_nil_iff]
    intro a ha
    have := List.all_eq_true.mp h a ha
    simpa using this
  rw [getResponse.eq_def, if_pos hf]

/-- C10 witness: a concrete assistant-only conversation takes the
greeting path. -/
theorem c10_no_user_greeting_witness :
    (([⟨"assistant", "hola"⟩] : List Turn).all (fun m => m.role ≠ "user") = true) ∧
    getResponse [⟨"assistant", "hola"⟩] (.error "down")
      = ("¡Hola! ¿En qué puedo ayudarte hoy? 😊", 0) :=
  ⟨by decide, c10_no_user_greeting _ _ (by decide)⟩

/-- Stored length of a session after its total turn count reaches `L`
under cap `N`: untrimmed up to `N + 1`, then alternating between `N`
and `N + 1` (the store trims only once the length exceeds `N + 1`). -/
def trimLen (N L : Nat) : Nat :=
  if L ≤ N + 1 then L else if (L - (N + 1)) % 2 = 0 then N + 1 else N

/-- One `add_message` on a system-led session: the system head is
preserved and the length clamps at `N + 1`. -/
theorem addMessage_sys (N : Nat) (hN : 1 ≤ N) (conv : List Turn) (s : Turn) (tail : List Turn)
    (hconv : conv = s :: tail) (hsys : s.role = "system") (hlen : conv.length ≤ N + 1)
    (r c : String) :
    (addMessage N conv r c).head? = some s ∧
    (addMessage N conv r c).length = min (conv.length + 1) (N + 1) := by
  subst hconv
  rw [addMessage]
  by_cases ht : N + 1 < (s :: tail ++ [(⟨r, c⟩ : Turn)]).length
  · rw [if_pos ht]
    simp only [List.cons_append]
    rw [if_pos hsys]
    have hlen2 : tail.length + 1 = N + 1 := by
      simp at hlen ht ⊢
      omega
    constructor
    · rfl
    · simp only [pyLastSlice, List.length_cons, List.length_append]
      rw [if_neg (by omega)]
      simp
      omega
  · rw [if_neg ht]
    constructor
    · rfl
    · simp at ht ⊢
      omega

/-- Repeated `add_message` on a system-led session. -/
theorem addMessages_sys (N : Nat) (hN : 1 ≤ N) (msgs : List (String × String)) :
    ∀ (conv : List Turn) (s : Turn) (tail : List Turn), conv = s :: tail → s.role = "system" →
      conv.length ≤ N + 1 →
      (addMessages N conv msgs).head? = some s ∧
      (addMessages N conv msgs).length = min (conv.length + msgs.length) (N + 1) := by
  induction msgs with
  | nil =>
    intro conv s tail hconv hsys hlen
    subst hconv
    refine ⟨rfl, ?_⟩
    show (s :: tail).length = _
    simp only [List.length_nil, Nat.add_zero]
    omega
  | cons m ms ih =>
    intro conv s tail hconv hsys hlen
    have step := addMessage_sys N hN conv s tail hconv hsys hlen m.1 m.2
    obtain ⟨tail2, htail2⟩ : ∃ t2, addMessage N conv m.1 m.2 = s :: t2 := by
      cases hx : addMessage N conv m.1 m.2 with
      | nil => rw [hx] at step; simp at step
      | cons y ys =>
        rw [hx] at step
        exact ⟨ys, by rw [(Option.some.inj step.1).symm]⟩
    have hlen2 : (addMessage N conv m.1 m.2).length ≤ N + 1 := by
      rw [step.2]
      omega
    have := ih (addMessage N conv m.1 m.2) s tail2 htail2 hsys hlen2
    refine ⟨this.1, ?_⟩
    rw [show addMessages N conv (m :: ms) = addMessages N (addMessage N conv m.1 m.2) ms from rfl]
    rw [this.2, step.2]
    subst hconv
    simp
    omega

/-- One `add_message` on a session with no system turns: roles stay
non-system and the length clamps to `N` on overflow. -/
theorem addMessage_nosys (N : Nat) (hN : 1 ≤ N) (conv : List Turn)
    (hroles : ∀ t ∈ conv, t.role ≠ "system") (hlen : conv.length ≤ N + 1)
    (r c : String) (hr : r ≠ "system") :
    (∀ t ∈ addMessage N conv r c, t.role ≠ "system") ∧
    (addMessage N conv r c).length
      = (if conv.length + 1 ≤ N + 1 then conv.length + 1 else N) := by
  have hmem2 : ∀ t ∈ conv ++ [(⟨r, c⟩ : Turn)], t.role ≠ "system" := by
    intro t ht
    rcases List.mem_append.mp ht with h | h
    · exact hroles t h
    · simp at h
      rw [h]
      exact hr
  rw [addMessage]
  by_cases ht : N + 1 < (conv ++ [(⟨r, c⟩ : Turn)]).length
  · rw [if_pos ht]
    cases hc : conv with
    | nil =>
      subst hc
      have hone : (([] : List Turn) ++ [(⟨r, c⟩ : Turn)]).length = 1 := by simp
      rw [hone] at ht
      exact absurd ht (by omega)
    | cons y ys =>
      subst hc
      simp only [List.cons_append]
      rw [if_neg (hroles y (by simp))]
      have hlen2 : ys.length + 1 = N + 1 := by
        simp at ht hlen ⊢
        omega
      constructor
      · intro t htm
        apply hmem2
        rw [pyLastSlice] at htm
        split at htm
        · exact htm
        · exact List.drop_subset _ _ htm
      · rw [if_neg (by simp at ht ⊢; omega)]
        simp only [pyLastSlice, List.length_cons, List.length_append]
        rw [if_neg (by omega)]
        simp
        omega
  · rw [if_neg ht]
    refine ⟨hmem2, ?_⟩
    rw [if_pos (by simp at ht ⊢; omega)]
    simp

/-- Adding two more turns past the cap returns to the same stored
length. -/
theorem trimLen_shift (N j : Nat) : trimLen N (N + j + 2) = trimLen N (N + j) := by
  unfold trimLen
  split_ifs <;> omega

/-- Repeated `add_message` on a session with no system turns. -/
theorem addMessages_nosys (N : Nat) (hN : 1 ≤ N) (msgs : List (String × String))
    (hmr : ∀ m ∈ msgs, m.1 ≠ "system") :
    ∀ (conv : List Turn), (∀ t ∈ conv, t.role ≠ "system") → conv.length ≤ N + 1 →
      (addMessages N conv msgs).length = trimLen N (conv.length + msgs.length) := by
  induction msgs with
  | nil =>
    intro conv hroles hlen
    show conv.length = _
    rw [trimLen, if_pos (by simp; omega)]
    simp
  | cons m ms ih =>
    intro conv hroles hlen
    have hm : m.1 ≠ "system" := hmr m (by simp)
    have step := addMessage_nosys N hN conv hroles hlen m.1 m.2 hm
    have hms : ∀ x ∈ ms, x.1 ≠ "system" := fun x hx => hmr x (by simp [hx])
    have hlen2 : (addMessage N conv m.1 m.2).length ≤ N + 1 := by
      rw [step.2]
      split <;> omega
    have := (ih hms) (addMessage N conv m.1 m.2) step.1 hlen2
    rw [show addMessages N conv (m :: ms) = addMessages N (addMessage N conv m.1 m.2) ms from rfl]
    rw [this, step.2]
    by_cases hc : conv.length + 1 ≤ N + 1
    · rw [if_pos hc]
      have : conv.length + (m :: ms).length = conv.length + 1 + ms.length := by simp; omega
      rw [this]
    · rw [if_neg hc]
      have h1 : conv.length = N + 1 := by omega
      have : conv.length + (m :: ms).length = N + ms.length + 2 := by simp; omega
      rw [this, trimLen_shift]

/-- C8 (amended): with history cap `N ≥ 1`, appending beyond the cap
to a session created with a system turn always leaves exactly `N + 1`
turns with the original system turn still first; for a session with no
system turn the store leaves `N + 1` or `N` turns, alternating with
each further append — exactly `N + 1` when the number of appends minus
`N + 1` is even — because trimming only fires once the length exceeds
`N + 1`. -/
theorem c8_trim_invariant :
    (∀ (N : Nat) (s : String) (msgs : List (String × String)), 1 ≤ N → N + 1 ≤ msgs.length →
      (addMessages N (createConversation (some s)) msgs).length = N + 1 ∧
      (addMessages N (createConversation (some s)) msgs).head? = some ⟨"system", s⟩) ∧
    (∀ (N : Nat) (msgs : List (String × String)), 1 ≤ N →
      (∀ m ∈ msgs, m.1 ≠ "system") → N + 1 ≤ msgs.length →
      (addMessages N (createConversation none) msgs).length
        = if (msgs.length - (N + 1)) % 2 = 0 then N + 1 else N) := by
  constructor
  · intro N s msgs hN hlen
    have h := addMessages_sys N hN msgs [⟨"system", s⟩] ⟨"system", s⟩ [] rfl rfl (by simp)
    rw [show createConversation (some s) = [(⟨"system", s⟩ : Turn)] from rfl]
    refine ⟨?_, h.1⟩
    rw [h.2]
    simp only [List.length_cons, List.length_nil]
    omega
  · intro N msgs hN hroles hlen
    have h := addMessages_nosys N hN msgs hroles [] (by simp) (by simp)
    rw [show createConversation none = ([] : List Turn) from rfl, h]
    rw [trimLen]
    simp only [List.length_nil, Nat.zero_add]
    split_ifs <;> omega

/-- C8 counterexample: with cap `N = 2` and no system turn, three
appends (beyond the cap) leave 3 turns in the store, not the claimed
`N = 2` — the trim only fires once the length exceeds `N + 1`. -/
theorem c8_counterexample :
    (addMessages 2 (createConversation none)
      [("user", "a"), ("user", "b"), ("user", "c")]).length = 3 ∧ (3 : Nat) ≠ 2 :=
  ⟨rfl, by omega⟩

/-- C8 witness: concrete runs of both trimming scenarios at cap 1. -/
theorem c8_trim_invariant_witness :
    ((1 : Nat) ≤ 1 ∧ 1 + 1 ≤ ([("user", "a"), ("user", "b")] : List (String × String)).length ∧
      (addMessages 1 (createConversation (some "sys")) [("user", "a"), ("user", "b")]).length = 1 + 1 ∧
      (addMessages 1 (createConversation (some "sys")) [("user", "a"), ("user", "b")]).head?
        = some ⟨"system", "sys"⟩) ∧
    ((∀ m ∈ ([("user", "a"), ("user", "b")] : List (String × String)), m.1 ≠ "system") ∧
      (addMessages 1 (createConversation none) [("user", "a"), ("user", "b")]).length
        = if ((([("user", "a"), ("user", "b")] : List (String × String)).length - (1 + 1)) % 2 = 0)
          then 1 + 1 else 1) :=
  ⟨⟨by omega, by decide,
      (c8_trim_invariant.1 1 "sys" [("user", "a"), ("user", "b")] (by omega) (by decide)).1,
      (c8_trim_invariant.1 1 "sys" [("user", "a"), ("user", "b")] (by omega) (by decide)).2⟩,
    ⟨by decide,
      c8_trim_invariant.2 1 [("user", "a"), ("user", "b")] (by omega) (by decide) (by decide)⟩⟩

/-- C7 counterexample: the CV pipeline entry point violates the spec's
result shape — with an empty job role it returns a bare
`\x7b"error": ...\x7d` mapping with no `success` flag at all. -/
theorem c7_counterexample :
    specResultShape (analyzeCvs ⟨fun s => s, .error ""⟩ "" [] "5") = false ∧
    analyzeCvs ⟨fun s => s, .error ""⟩ "" [] "5"
      = .obj [("error", .str "Job role is required")] :=
  ⟨rfl, rfl⟩

/-- C7 (amended): no entry point raises — every outcome of the
environment resolves to a returned mapping — and the bill and contract
entry points always return the `\x7bsuccess, data | error\x7d` shape;
the CV entry point instead returns either a bare error mapping without
a `success` flag or a success mapping carrying `analysis` and echo
fields rather than `data`. -/
theorem c7_process_shape (benv : BillEnv) (cenv : ContractEnv) (henv : HrEnv)
    (jobRole : String) (files : List CvFile) (topCount : String) :
    specResultShape (processBill benv) = true ∧
    specResultShape (processContract cenv) = true ∧
    hrResultShape (analyzeCvs henv jobRole files topCount) = true := by
  refine ⟨?_, ?_, ?_⟩
  · cases hb : benv.extract with
    | error msg => simp only [processBill, hb]; rfl
    | ok text =>
      by_cases hs : pyStrip text = ""
      · simp only [processBill, hb, hs]; rfl
      · cases ha : analyzeBill benv with
        | ok j => simp only [processBill, hb, if_neg hs, ha]; rfl
        | error e => simp only [processBill, hb, if_neg hs, ha]; rfl
  · cases hb : cenv.extract with
    | error msg => simp only [processContract, hb]; rfl
    | ok text =>
      by_cases hs : pyStrip text = ""
      · simp only [processContract, hb, hs]; rfl
      · cases ha : (analyzeContract cenv.post).1 with
        | ok j => simp only [processContract, hb, if_neg hs, ha]; rfl
        | error e => simp only [processContract, hb, if_neg hs, ha]; rfl
  · by_cases h1 : jobRole = ""
    · simp only [analyzeCvs, h1]; rfl
    · by_cases h2 : (files.isEmpty || files.all (fun f => f.filename = "")) = true
      · simp only [analyzeCvs, if_neg h1, h2]; rfl
      · by_cases h3 : processCvFiles henv files = ""
        · simp only [analyzeCvs, if_neg h1, Bool.not_eq_true, h2, h3]
          simp only [eq_self_iff_true, if_true, if_false]
          rfl
        · simp only [analyzeCvs, if_neg h1, Bool.not_eq_true, h2, if_neg h3]
          rfl

/-- Structure of every successful contract normalization: the four
list-of-object fields pass through from the parsed object (defaulting
to `[]`), while the nested `parties` object is rebuilt with exactly
its three schema keys. -/
theorem contractValidate_ok_passthrough (kvs : List (String × Json)) (j : Json)
    (h : contractValidate (.obj kvs) = .ok j) :
    jGetObj j "legal_terms_simplified" = some (dictGetD kvs "legal_terms_simplified" (.arr [])) ∧
    jGetObj j "risky_parts" = some (dictGetD kvs "risky_parts" (.arr [])) ∧
    jGetObj j "missing_clauses" = some (dictGetD kvs "missing_clauses" (.arr [])) ∧
    jGetObj j "recommended_changes" = some (dictGetD kvs "recommended_changes" (.arr [])) ∧
    (jGetObj j "parties").map objKeys = some ["party1", "party2", "relationship"] := by
  simp only [contractValidate, bind, Except.bind, pyGet] at h
  repeat (split at h; try exact absurd h (by simp))
  all_goals first
    | exact absurd h (by simp)
    | (injection h with h2; rw [← h2]; exact ⟨rfl, rfl, rfl, rfl, rfl⟩)

/-- C9 (amended): the contract processor's list-of-object fields are
passed through structurally unchanged when present and default to `[]`
when absent; but its nested `parties` object is rebuilt field-by-field
(exactly three stringified keys, whatever the input held), and the
bill `items` list is rebuilt per item (name / amount / category /
notes coerced, other keys dropped), not passed through. -/
theorem c9_passthrough :
    (∀ (kvs : List (String × Json)) (v j : Json),
      contractValidate (.obj kvs) = .ok j →
      jLookup kvs "legal_terms_simplified" = some v →
      jGetObj j "legal_terms_simplified" = some v) ∧
    (∀ (kvs : List (String × Json)) (j : Json),
      contractValidate (.obj kvs) = .ok j →
      jLookup kvs "risky_parts" = none →
      jGetObj j "risky_parts" = some (.arr [])) ∧
    (∀ (kvs : List (String × Json)) (j : Json),
      contractValidate (.obj kvs) = .ok j →
      (jGetObj j "parties").map objKeys = some ["party1", "party2", "relationship"]) ∧
    okField (billValidate
        (.obj [("items", .arr [.obj [("name", .str "x"), ("extra", .inum 1)]])]) "English") "items"
      = some (.arr [.obj [("name", .str "x"), ("amount", .fnum 0),
          ("category", .str "Unknown"), ("notes", .str "")]]) := by
  refine ⟨?_, ?_, ?_, rfl⟩
  · intro kvs v j h hl
    rw [(contractValidate_ok_passthrough kvs j h).1, dictGetD, hl]
    rfl
  · intro kvs j h hl
    rw [(contractValidate_ok_passthrough kvs j h).2.1, dictGetD, hl]
    rfl
  · intro kvs j h
    exact (contractValidate_ok_passthrough kvs j h).2.2.2.2

/-- C9 counterexample: a parsed bill item `\x7bname: "x", extra: 1\x7d`
does not appear unchanged in the normalized result — the cleaned item
has exactly the keys name / amount / category / notes, dropping
`extra`. -/
theorem c9_counterexample :
    (okField (billValidate
        (.obj [("items", .arr [.obj [("name", .str "x"), ("extra", .inum 1)]])]) "English")
        "items").map
      (fun its => match its with
        | .arr xs => xs.map objKeys
        | _ => [])
      = some [["name", "amount", "category", "notes"]] ∧
    [["name", "amount", "category", "notes"]] ≠ [["name", "extra"]] :=
  ⟨rfl, by decide⟩

/-- Contract normalization of an object carrying only a one-element
`legal_terms_simplified` list: that list passes through, everything
else defaults. -/
def c9Result : Json :=
  .obj
    [("contract_title", .str "Unknown Contract"),
     ("duration", .str "Not specified"),
     ("parties", .obj
       [("party1", .str "Unknown"),
        ("party2", .str "Unknown"),
        ("relationship", .str "Not specified")]),
     ("contract_details", .str "No details available"),
     ("risk_assessment", .obj
       [("safety_percentage", .inum 50),
        ("risk_level", .str "Medium"),
        ("scam_likelihood", .str "Unknown"),
        ("explanation", .str "No risk assessment available")]),
     ("contract_explanation", .str "No explanation available"),
     ("legal_terms_simplified", .arr [.str "t"]),
     ("risky_parts", .arr []),
     ("missing_clauses", .arr []),
     ("recommended_changes", .arr []),
     ("final_recommendations", .str "No recommendations available")]

/-- C9 witness: a concrete present list passes through and a concrete
absent list defaults to `[]`. -/
theorem c9_passthrough_witness :
    contractValidate (.obj [("legal_terms_simplified", .arr [.str "t"])]) = .ok c9Result ∧
    jLookup [("legal_terms_simplified", .arr [.str "t"])] "legal_terms_simplified"
      = some (.arr [.str "t"]) ∧
    jGetObj c9Result "legal_terms_simplified" = some (.arr [.str "t"]) ∧
    jGetObj c9Result "risky_parts" = some (.arr []) ∧
    (jGetObj c9Result "parties").map objKeys = some ["party1", "party2", "relationship"] :=
  ⟨rfl, rfl,
    c9_passthrough.1 [("legal_terms_simplified", .arr [.str "t"])] (.arr [.str "t"]) c9Result
      rfl rfl,
    c9_passthrough.2.1 [("legal_terms_simplified", .arr [.str "t"])] c9Result rfl rfl,
    c9_passthrough.2.2.1 [("legal_terms_simplified", .arr [.str "t"])] c9Result rfl⟩


end Flooky
